import Mathlib

/-!
Verification of the customer-service demo tools, the chat event loop, the
filesystem organizer, and the dashboard anomaly detector of this repository.
Each definition is a shallow embedding of the corresponding Python function;
framework calls (agent runner, chainlit widgets, pathlib stat, shutil move,
pandas quantile) are abstracted as explicit parameters or modelled by their
documented semantics.
-/

/-- Result of running a Python function: a returned value, or an uncaught
exception carrying its message. -/
inductive PyResult (α : Type) where
  | ok (val : α)
  | exn (msg : String)
deriving Repr, DecidableEq

set_option maxRecDepth 16384

namespace CSvc

/-- One record of the mock `ORDERS_DB` dictionary in `config.py`.
`tracking` is the stored value (Python `None` becomes `none`); `eta` and
`delivered_date` are `none` when the key is absent from the record. -/
structure Order where
  customer_id : String
  item : String
  price : ℚ
  status : String
  tracking : Option String
  eta : Option String
  delivered_date : Option String
deriving Repr, DecidableEq

/-- The `CustomerContext` dataclass of `models.py`. -/
structure CustomerContext where
  customer_id : String
  customer_name : String
  is_premium : Bool
deriving Repr, DecidableEq

/-- The `AbuseCheck` pydantic model of `models.py`. -/
structure AbuseCheck where
  is_abusive : Bool
  reason : String
deriving Repr, DecidableEq

/-- The mock order database of `config.py`.  The two date strings are
computed from `datetime.now()` at import time, so they are parameters here:
`ordEta` is the ETA of ORD-001 and `ordDelivered` the delivery date of
ORD-002. -/
def ORDERS_DB (ordEta : String) (ordDelivered : String) : List (String × Order) :=
  [("ORD-001",
    { customer_id := "CUST-123", item := "Wireless Headphones", price := 7999/100,
      status := "shipped", tracking := some "1Z999AA10123456784",
      eta := some ordEta, delivered_date := none }),
   ("ORD-002",
    { customer_id := "CUST-123", item := "Phone Case", price := 1999/100,
      status := "delivered", tracking := some "1Z999AA10123456785",
      eta := none, delivered_date := some ordDelivered }),
   ("ORD-003",
    { customer_id := "CUST-456", item := "USB Cable", price := 1299/100,
      status := "processing", tracking := none,
      eta := some "Pending shipment", delivered_date := none })]

/-- Python `f"{x:.2f}"` on a two-decimal amount: render the rational with
exactly two digits after the decimal point (rounding the cents half-up;
exact for every price stored in `ORDERS_DB`). -/
def money (q : ℚ) : String :=
  let cents : Int := (q * 100 + 1/2).floor
  let n : Nat := cents.natAbs
  (if cents < 0 then "-" else "")
    ++ toString (n / 100) ++ "." ++ (if n % 100 < 10 then "0" else "") ++ toString (n % 100)

/-- Python dictionary subscript `db[k]`: the stored value, or a `KeyError`
exception when the key is absent. -/
def dictGet (db : List (String × Order)) (k : String) : PyResult Order :=
  match db.lookup k with
  | some o => PyResult.ok o
  | none => PyResult.exn ("KeyError: " ++ k)

/-- The rendered body of the order-details message of `lookup_order`
(`tools.py`): Python renders a stored `None` tracking value as `"None"`,
and the ETA line falls back from `eta` to `delivered_date` to `"N/A"`. -/
def orderDetails (order_id : String) (o : Order) : String :=
  "\nOrder " ++ order_id ++ ":\n- Item: " ++ o.item
    ++ "\n- Price: $" ++ money o.price
    ++ "\n- Status: " ++ o.status.toUpper
    ++ "\n- Tracking: " ++ (match o.tracking with | some t => t | none => "None")
    ++ "\n- ETA: " ++ (o.eta.getD (o.delivered_date.getD "N/A"))
    ++ "\n"

/-- `lookup_order` of `tools.py`.  The tool reads the database and the
customer context and returns a message; the returned triple threads both
through unchanged, and the `PyResult` layer records that the only
dictionary subscript is guarded by the membership test. -/
def lookup_order (db : List (String × Order)) (ctx : CustomerContext)
    (order_id : String) :
    PyResult (List (String × Order) × CustomerContext × String) :=
  if (db.lookup order_id).isNone then
    PyResult.ok (db, ctx, "Order " ++ order_id ++ " not found.")
  else
    match dictGet db order_id with
    | PyResult.exn e => PyResult.exn e
    | PyResult.ok order =>
      if order.customer_id ≠ ctx.customer_id then
        PyResult.ok (db, ctx, "Order " ++ order_id ++ " does not belong to your account.")
      else
        PyResult.ok (db, ctx, orderDetails order_id order)

/-- `list_customer_orders` of `tools.py`. -/
def list_customer_orders (db : List (String × Order)) (ctx : CustomerContext) :
    PyResult (List (String × Order) × CustomerContext × String) :=
  let customer_orders :=
    (db.filter (fun p => p.2.customer_id == ctx.customer_id)).map
      (fun p => "- " ++ p.1 ++ ": " ++ p.2.item ++ " ($" ++ money p.2.price ++ ") - " ++ p.2.status)
  if customer_orders.isEmpty then
    PyResult.ok (db, ctx, "No orders found for your account.")
  else
    PyResult.ok (db, ctx, "Your orders:\n" ++ String.intercalate "\n" customer_orders)

/-- `calculate_refund` of `tools.py`: membership guard, ownership guard,
then the status chain. -/
def calculate_refund (db : List (String × Order)) (ctx : CustomerContext)
    (order_id reason : String) :
    PyResult (List (String × Order) × CustomerContext × String) :=
  if (db.lookup order_id).isNone then
    PyResult.ok (db, ctx, "Order " ++ order_id ++ " not found.")
  else
    match dictGet db order_id with
    | PyResult.exn e => PyResult.exn e
    | PyResult.ok order =>
      if order.customer_id ≠ ctx.customer_id then
        PyResult.ok (db, ctx, "This order does not belong to your account.")
      else
        let price := order.price
        if order.status = "processing" then
          PyResult.ok (db, ctx, "Order " ++ order_id ++ " can be cancelled for a full refund of $"
            ++ money price ++ ". Reason: " ++ reason)
        else if order.status = "shipped" then
          if ctx.is_premium then
            PyResult.ok (db, ctx, "Premium customer: Eligible for full refund of $"
              ++ money price ++ " upon return. Reason: " ++ reason)
          else
            PyResult.ok (db, ctx, "Order in transit. Please wait for delivery to request refund. Reason: "
              ++ reason)
        else if order.status = "delivered" then
          let approval_note := if (50 : ℚ) < price then " (Requires manager approval)" else ""
          PyResult.ok (db, ctx, "Refund eligible: $" ++ money price ++ approval_note
            ++ ". Reason: " ++ reason)
        else
          PyResult.ok (db, ctx, "Unable to process refund for order " ++ order_id)

/-- `process_refund` of `tools.py`: a membership guard and the success
message; there is no ownership guard. -/
def process_refund (db : List (String × Order)) (ctx : CustomerContext)
    (order_id : String) :
    PyResult (List (String × Order) × CustomerContext × String) :=
  if (db.lookup order_id).isNone then
    PyResult.ok (db, ctx, "Order " ++ order_id ++ " not found.")
  else
    match dictGet db order_id with
    | PyResult.exn e => PyResult.exn e
    | PyResult.ok order =>
      PyResult.ok (db, ctx, "Refund processed successfully!\n- Order: " ++ order_id
        ++ "\n- Amount: $" ++ money order.price
        ++ "\n- Method: Original payment method\n- Timeline: 3-5 business days\n\nThank you for your patience, "
        ++ ctx.customer_name ++ "!")

/-- Spec-side classification of `lookup_order`: a guarded dictionary
lookup, written from the words of the claim to be compared with the source
translation. -/
def lookupOrderSpec (db : List (String × Order)) (ctx : CustomerContext)
    (order_id : String) : String :=
  match db.lookup order_id with
  | none => "Order " ++ order_id ++ " not found."
  | some o =>
    if o.customer_id = ctx.customer_id then orderDetails order_id o
    else "Order " ++ order_id ++ " does not belong to your account."

/-- Spec-side truth table for `calculate_refund` on an owned order, written
from the words of the claim: the outcome depends only on the status string
and the premium flag. -/
def refundOutcomeSpec (order_id : String) (o : Order) (ctx : CustomerContext)
    (reason : String) : String :=
  if o.status = "processing" then
    "Order " ++ order_id ++ " can be cancelled for a full refund of $"
      ++ money o.price ++ ". Reason: " ++ reason
  else if o.status = "shipped" then
    if ctx.is_premium then
      "Premium customer: Eligible for full refund of $" ++ money o.price
        ++ " upon return. Reason: " ++ reason
    else
      "Order in transit. Please wait for delivery to request refund. Reason: " ++ reason
  else if o.status = "delivered" then
    "Refund eligible: $" ++ money o.price
      ++ (if (50 : ℚ) < o.price then " (Requires manager approval)" else "")
      ++ ". Reason: " ++ reason
  else
    "Unable to process refund for order " ++ order_id

/-- The manager-approval note appended by the delivered branch of
`calculate_refund`. -/
def approvalNote : String := " (Requires manager approval)"

/-- Sample instantiation of the database with fixed date strings, used for
concrete evaluations. -/
def sampleDB : List (String × Order) := ORDERS_DB "2026-10-14" "2026-10-09"

/-- The context built by `get_customer_context "CUST-123"` in `config.py`. -/
def ctxAlice : CustomerContext :=
  { customer_id := "CUST-123", customer_name := "Alice Johnson", is_premium := true }

/-- The context built by `get_customer_context "CUST-456"` in `config.py`. -/
def ctxBob : CustomerContext :=
  { customer_id := "CUST-456", customer_name := "Bob Smith", is_premium := false }

-- Helper lemmas over an arbitrary database.

theorem calculate_refund_owned (db : List (String × Order)) (ctx : CustomerContext)
    (order_id reason : String) (o : Order)
    (h : db.lookup order_id = some o) (hown : o.customer_id = ctx.customer_id) :
    calculate_refund db ctx order_id reason
      = PyResult.ok (db, ctx, refundOutcomeSpec order_id o ctx reason) := by
  simp only [calculate_refund, dictGet, h, hown, refundOutcomeSpec, Option.isNone_some,
    Bool.false_eq_true, if_false, ne_eq, not_true_eq_false]
  split_ifs <;> rfl

theorem lookup_order_eq_spec (db : List (String × Order)) (ctx : CustomerContext)
    (order_id : String) :
    lookup_order db ctx order_id = PyResult.ok (db, ctx, lookupOrderSpec db ctx order_id) := by
  cases h : db.lookup order_id with
  | none => simp [lookup_order, dictGet, lookupOrderSpec, h]
  | some o =>
    by_cases hown : o.customer_id = ctx.customer_id <;>
      simp [lookup_order, dictGet, lookupOrderSpec, h, hown]

/-- C7: `lookup_order` is a guarded dictionary lookup: it returns the
formatted order details exactly when the order id is a key of `ORDERS_DB`
owned by the context customer, the not-found message when the key is
absent, the does-not-belong message when the order is another customer's,
and it never raises an exception (the result is always `PyResult.ok`, with
the database and context unchanged). -/
theorem lookup_order_guarded (ordEta ordDelivered order_id : String)
    (ctx : CustomerContext) :
    lookup_order (ORDERS_DB ordEta ordDelivered) ctx order_id
      = PyResult.ok (ORDERS_DB ordEta ordDelivered, ctx,
          lookupOrderSpec (ORDERS_DB ordEta ordDelivered) ctx order_id) :=
  lookup_order_eq_spec (ORDERS_DB ordEta ordDelivered) ctx order_id

/-- C3: the four customer-service tools are stateless: on every input each
returns `PyResult.ok` with the database and the customer context it was
given, unchanged; in particular `process_refund` produces its message
without modifying any order. -/
theorem tools_stateless (db : List (String × Order)) (ctx : CustomerContext)
    (order_id reason : String) :
    (∃ m, lookup_order db ctx order_id = PyResult.ok (db, ctx, m))
    ∧ (∃ m, list_customer_orders db ctx = PyResult.ok (db, ctx, m))
    ∧ (∃ m, calculate_refund db ctx order_id reason = PyResult.ok (db, ctx, m))
    ∧ (∃ m, process_refund db ctx order_id = PyResult.ok (db, ctx, m)) := by
  refine ⟨⟨_, lookup_order_eq_spec db ctx order_id⟩, ?_, ?_, ?_⟩
  · dsimp only [list_customer_orders]
    split <;> exact ⟨_, rfl⟩
  · cases h : db.lookup order_id with
    | none =>
      exact ⟨"Order " ++ order_id ++ " not found.", by simp [calculate_refund, h]⟩
    | some o =>
      simp only [calculate_refund, dictGet, h, Option.isNone_some, Bool.false_eq_true,
        if_false]
      split_ifs <;> exact ⟨_, rfl⟩
  · cases h : db.lookup order_id with
    | none =>
      exact ⟨"Order " ++ order_id ++ " not found.", by simp [process_refund, h]⟩
    | some o =>
      simp only [process_refund, dictGet, h, Option.isNone_some, Bool.false_eq_true,
        if_false]
      exact ⟨_, rfl⟩

/-- C2: for every order of `ORDERS_DB` owned by the context customer, the
outcome of `calculate_refund` is the truth table over the status string and
the premium flag given by `refundOutcomeSpec`: processing is cancellable for
a full refund, shipped is refundable upon return for premium customers and
a wait-for-delivery instruction otherwise, delivered is refund eligible, and
any other status is the unable-to-process message. -/
theorem calculate_refund_truth_table (ordEta ordDelivered order_id reason : String)
    (o : Order) (ctx : CustomerContext)
    (h : (ORDERS_DB ordEta ordDelivered).lookup order_id = some o)
    (hown : o.customer_id = ctx.customer_id) :
    calculate_refund (ORDERS_DB ordEta ordDelivered) ctx order_id reason
      = PyResult.ok (ORDERS_DB ordEta ordDelivered, ctx,
          refundOutcomeSpec order_id o ctx reason) :=
  calculate_refund_owned (ORDERS_DB ordEta ordDelivered) ctx order_id reason o h hown

unseal Rat.mul Rat.add Rat.inv in
theorem calculate_refund_truth_table_witness :
    calculate_refund (ORDERS_DB "2026-10-14" "2026-10-09") ctxBob "ORD-003" "changed my mind"
      = PyResult.ok (ORDERS_DB "2026-10-14" "2026-10-09", ctxBob,
          "Order ORD-003 can be cancelled for a full refund of $12.99. Reason: changed my mind") := by
  rw [calculate_refund_truth_table "2026-10-14" "2026-10-09" "ORD-003" "changed my mind"
    { customer_id := "CUST-456", item := "USB Cable", price := 1299/100,
      status := "processing", tracking := none, eta := some "Pending shipment",
      delivered_date := none } ctxBob rfl rfl]
  decide

unseal Rat.mul Rat.add Rat.inv in
/-- C1 counterexample: ORD-002 is a delivered order of the context customer
with price 19.99, yet when the caller-supplied reason itself contains the
approval note, the returned message contains the note although the price is
not greater than 50 — so the claimed if-and-only-if fails. -/
theorem calculate_refund_delivered_note_counterexample :
    (sampleDB.lookup "ORD-002").map Order.status = some "delivered"
    ∧ (sampleDB.lookup "ORD-002").map Order.customer_id = some ctxAlice.customer_id
    ∧ (sampleDB.lookup "ORD-002").map Order.price = some (1999/100)
    ∧ calculate_refund sampleDB ctxAlice "ORD-002" approvalNote
        = PyResult.ok (sampleDB, ctxAlice,
            "Refund eligible: $19.99. Reason:  (Requires manager approval)")
    ∧ ¬ ((approvalNote.data
            <:+: ("Refund eligible: $19.99. Reason:  (Requires manager approval)").data)
          ↔ (50 : ℚ) < 1999/100) := by
  refine ⟨rfl, rfl, rfl, by decide, by decide⟩

/-- C1 (amended): for every delivered order of `ORDERS_DB` owned by the
context customer, `calculate_refund` returns the message
`"Refund eligible: $<price>"` followed by the approval note exactly when the
price is strictly greater than 50, followed by `". Reason: <reason>"`; the
caller-supplied reason is interpolated verbatim, so the full message can
additionally contain the note whenever the reason does. -/
theorem calculate_refund_delivered_note_amended (ordEta ordDelivered order_id reason : String)
    (o : Order) (ctx : CustomerContext)
    (h : (ORDERS_DB ordEta ordDelivered).lookup order_id = some o)
    (hown : o.customer_id = ctx.customer_id) (hst : o.status = "delivered") :
    calculate_refund (ORDERS_DB ordEta ordDelivered) ctx order_id reason
      = PyResult.ok (ORDERS_DB ordEta ordDelivered, ctx,
          "Refund eligible: $" ++ money o.price
            ++ (if (50 : ℚ) < o.price then approvalNote else "")
            ++ ". Reason: " ++ reason) := by
  rw [calculate_refund_owned (ORDERS_DB ordEta ordDelivered) ctx order_id reason o h hown]
  simp [refundOutcomeSpec, hst, approvalNote]

unseal Rat.mul Rat.add Rat.inv in
theorem calculate_refund_delivered_note_amended_witness :
    calculate_refund (ORDERS_DB "2026-10-14" "2026-10-09") ctxAlice "ORD-002" "Broken"
      = PyResult.ok (ORDERS_DB "2026-10-14" "2026-10-09", ctxAlice,
          "Refund eligible: $19.99. Reason: Broken") := by
  rw [calculate_refund_delivered_note_amended "2026-10-14" "2026-10-09" "ORD-002" "Broken"
    { customer_id := "CUST-123", item := "Phone Case", price := 1999/100,
      status := "delivered", tracking := some "1Z999AA10123456785",
      eta := none, delivered_date := some "2026-10-09" } ctxAlice rfl rfl rfl]
  decide

/-- C9: `process_refund` does not check order ownership: for every order id
present in `ORDERS_DB` and every customer context it returns the
refund-processed-successfully message with the order price, regardless of
whether the order belongs to the context customer — while on a mismatched
customer both `calculate_refund` and `lookup_order` reject with their
does-not-belong messages. -/
theorem process_refund_no_ownership_check (ordEta ordDelivered order_id reason : String)
    (o : Order) (ctx : CustomerContext)
    (h : (ORDERS_DB ordEta ordDelivered).lookup order_id = some o) :
    (process_refund (ORDERS_DB ordEta ordDelivered) ctx order_id
        = PyResult.ok (ORDERS_DB ordEta ordDelivered, ctx,
            "Refund processed successfully!\n- Order: " ++ order_id
              ++ "\n- Amount: $" ++ money o.price
              ++ "\n- Method: Original payment method\n- Timeline: 3-5 business days\n\nThank you for your patience, "
              ++ ctx.customer_name ++ "!"))
    ∧ (o.customer_id ≠ ctx.customer_id →
        calculate_refund (ORDERS_DB ordEta ordDelivered) ctx order_id reason
          = PyResult.ok (ORDERS_DB ordEta ordDelivered, ctx,
              "This order does not belong to your account.")
        ∧ lookup_order (ORDERS_DB ordEta ordDelivered) ctx order_id
          = PyResult.ok (ORDERS_DB ordEta ordDelivered, ctx,
              "Order " ++ order_id ++ " does not belong to your account.")) := by
  refine ⟨by simp [process_refund, dictGet, h], fun hne => ⟨?_, ?_⟩⟩
  · simp [calculate_refund, dictGet, h, hne]
  · simp [lookup_order, dictGet, h, hne]

unseal Rat.mul Rat.add Rat.inv in
theorem process_refund_no_ownership_check_witness :
    process_refund (ORDERS_DB "2026-10-14" "2026-10-09") ctxBob "ORD-001"
      = PyResult.ok (ORDERS_DB "2026-10-14" "2026-10-09", ctxBob,
          "Refund processed successfully!\n- Order: ORD-001\n- Amount: $79.99\n- Method: Original payment method\n- Timeline: 3-5 business days\n\nThank you for your patience, Bob Smith!")
    ∧ calculate_refund (ORDERS_DB "2026-10-14" "2026-10-09") ctxBob "ORD-001" "want money back"
      = PyResult.ok (ORDERS_DB "2026-10-14" "2026-10-09", ctxBob,
          "This order does not belong to your account.")
    ∧ lookup_order (ORDERS_DB "2026-10-14" "2026-10-09") ctxBob "ORD-001"
      = PyResult.ok (ORDERS_DB "2026-10-14" "2026-10-09", ctxBob,
          "Order ORD-001 does not belong to your account.") := by
  have h := process_refund_no_ownership_check "2026-10-14" "2026-10-09" "ORD-001"
    "want money back"
    { customer_id := "CUST-123", item := "Wireless Headphones", price := 7999/100,
      status := "shipped", tracking := some "1Z999AA10123456784",
      eta := some "2026-10-14", delivered_date := none } ctxBob rfl
  refine ⟨h.1.trans (by decide), (h.2 (by decide)).1, ((h.2 (by decide)).2).trans (by decide)⟩

end CSvc

namespace ChatUI

/-- `GuardrailFunctionOutput` as constructed by `abuse_guardrail` in
`agents_def.py`. -/
structure GuardrailFunctionOutput where
  output_info : CSvc.AbuseCheck
  tripwire_triggered : Bool
deriving Repr, DecidableEq

/-- `abuse_guardrail` of `agents_def.py`.  The call
`Runner.run(abuse_detector, input_data)` and the extraction
`result.final_output_as(AbuseCheck)` are framework work; the structured
classifier verdict they produce is the `check` argument here, and the
function wraps it with `tripwire_triggered=check.is_abusive`. -/
def abuse_guardrail (check : CSvc.AbuseCheck) : GuardrailFunctionOutput :=
  { output_info := check, tripwire_triggered := check.is_abusive }

/-- One streaming event delivered to the `async for` loop of `on_message`
in `app.py`.  `toolCallItem` and `toolCallOutputItem` are the two
`run_item_stream_event` item kinds the loop handles; `textDelta` is a
`raw_response_event` whose data is a `ResponseTextDeltaEvent`; every other
event falls into `otherEvent`.  A `call_id` read from the raw item is
`none` when absent (Python `None`). -/
inductive RunEvent where
  | toolCallItem (name : String) (call_id : Option String) (args : String)
  | toolCallOutputItem (call_id : Option String) (output : String)
  | textDelta (delta : String)
  | otherEvent
deriving Repr, DecidableEq

/-- A UI update issued by `on_message`: sending a chainlit message, sending
a tool step widget, updating the step stored under a call id, creating the
(single) assistant message widget, streaming a text token into it, or the
final `msg.update()`. -/
inductive UIAction where
  | sendMessage (content : String)
  | sendStep (name : String) (input : String)
  | updateStep (call_id : String) (output : String)
  | createMsg
  | streamToken (delta : String)
  | updateMsg
deriving Repr, DecidableEq

/-- The loop-carried state of `on_message`: the keys of the `tool_steps`
dictionary, and whether the lazy assistant message widget has been
created (`msg is not None`). -/
structure LoopState where
  toolSteps : List String
  msgCreated : Bool
deriving Repr, DecidableEq

def initLoopState : LoopState := { toolSteps := [], msgCreated := false }

/-- One iteration of the `async for event in result.stream_events()` loop
of `on_message`: Python truthiness of `call_id` makes `None` and the empty
string fail the `if call_id` guards. -/
def stepEvent (st : LoopState) : RunEvent → LoopState × List UIAction
  | RunEvent.toolCallItem name call_id args =>
    match call_id with
    | some c =>
      if c.isEmpty then (st, [UIAction.sendStep name args])
      else ({ st with toolSteps := c :: st.toolSteps }, [UIAction.sendStep name args])
    | none => (st, [UIAction.sendStep name args])
  | RunEvent.toolCallOutputItem call_id out =>
    match call_id with
    | some c =>
      if !c.isEmpty && decide (c ∈ st.toolSteps) then (st, [UIAction.updateStep c out])
      else (st, [])
    | none => (st, [])
  | RunEvent.textDelta d =>
    if st.msgCreated then (st, [UIAction.streamToken d])
    else ({ st with msgCreated := true }, [UIAction.createMsg, UIAction.streamToken d])
  | RunEvent.otherEvent => (st, [])

/-- Running the whole event loop from a given state, collecting the UI
actions in order. -/
def runLoop (st : LoopState) : List RunEvent → LoopState × List UIAction
  | [] => (st, [])
  | e :: es =>
    let p := stepEvent st e
    let q := runLoop p.1 es
    (q.1, p.2 ++ q.2)

/-- Outcome of `Runner.run_streamed` plus event consumption as seen by the
`try` block of `on_message`: either the input guardrail tripwire exception
is raised, or the stream of events is consumed to the end. -/
inductive RunOutcome where
  | tripwire
  | events (evs : List RunEvent)

/-- The fixed apology sent by the `except InputGuardrailTripwireTriggered`
handler of `on_message`. -/
def apologyMessage : String :=
  "I\x27m sorry, but I can\x27t process messages that contain abusive or inappropriate language. Please rephrase your request and I\x27ll be happy to help."

/-- The `on_message` handler of `app.py`: on a tripwire it sends only the
fixed apology; otherwise it forwards the events and finally calls
`msg.update()` when the assistant widget was created. -/
def on_message : RunOutcome → List UIAction
  | RunOutcome.tripwire => [UIAction.sendMessage apologyMessage]
  | RunOutcome.events evs =>
    let p := runLoop initLoopState evs
    p.2 ++ (if p.1.msgCreated then [UIAction.updateMsg] else [])

def isTextDelta : RunEvent → Bool
  | RunEvent.textDelta _ => true
  | _ => false

def isCreateMsg : UIAction → Bool
  | UIAction.createMsg => true
  | _ => false

-- Loop invariant lemmas.

theorem runLoop_cons (st : LoopState) (e : RunEvent) (es : List RunEvent) :
    runLoop st (e :: es)
      = ((runLoop (stepEvent st e).1 es).1,
         (stepEvent st e).2 ++ (runLoop (stepEvent st e).1 es).2) := rfl

/-- Every call id registered by the loop comes from an earlier
`toolCallItem` event (or was registered before the loop started). -/
theorem mem_toolSteps_of_runLoop (evs : List RunEvent) :
    ∀ (st : LoopState) (s : String), s ∈ (runLoop st evs).1.toolSteps →
      s ∈ st.toolSteps ∨ ∃ name args, RunEvent.toolCallItem name (some s) args ∈ evs := by
  induction evs with
  | nil => intro st s h; exact Or.inl h
  | cons e es ih =>
    intro st s h
    rw [runLoop_cons] at h
    rcases ih (stepEvent st e).1 s h with h1 | ⟨name, args, hmem⟩
    · cases e with
      | toolCallItem n c a =>
        cases c with
        | some c0 =>
          by_cases hc : c0.isEmpty
          · simp only [stepEvent, hc, if_true] at h1
            exact Or.inl h1
          · simp only [stepEvent, hc, if_false] at h1
            rcases List.mem_cons.mp h1 with hsc | hst
            · exact Or.inr ⟨n, a, by simp [hsc]⟩
            · exact Or.inl hst
        | none => exact Or.inl h1
      | toolCallOutputItem c out =>
        cases c with
        | some c0 =>
          by_cases hc : (!c0.isEmpty && decide (c0 ∈ st.toolSteps)) = true
          · simp only [stepEvent, hc, if_true] at h1
            exact Or.inl h1
          · simp only [stepEvent, hc, if_false] at h1
            exact Or.inl h1
        | none => exact Or.inl h1
      | textDelta d =>
        by_cases hm : st.msgCreated
        · simp only [stepEvent, hm, if_true] at h1
          exact Or.inl h1
        · simp only [stepEvent, hm, if_false] at h1
          exact Or.inl h1
      | otherEvent => exact Or.inl h1
    · exact Or.inr ⟨name, args, List.mem_cons_of_mem e hmem⟩

/-- The message widget flag after the loop: set exactly when it was set
before or some text delta arrived. -/
theorem runLoop_msgCreated (evs : List RunEvent) :
    ∀ st : LoopState,
      (runLoop st evs).1.msgCreated = (st.msgCreated || evs.any isTextDelta) := by
  induction evs with
  | nil => intro st; simp [runLoop]
  | cons e es ih =>
    intro st
    rw [runLoop_cons, ih]
    cases e with
    | toolCallItem n c a =>
      cases c with
      | some c0 => by_cases hc : c0.isEmpty <;> simp [stepEvent, hc, isTextDelta]
      | none => simp [stepEvent, isTextDelta]
    | toolCallOutputItem c out =>
      cases c with
      | some c0 =>
        by_cases hc : (!c0.isEmpty && decide (c0 ∈ st.toolSteps)) = true <;>
          simp [stepEvent, hc, isTextDelta]
      | none => simp [stepEvent, isTextDelta]
    | textDelta d =>
      by_cases hm : st.msgCreated <;> simp [stepEvent, hm, isTextDelta]
    | otherEvent => simp [stepEvent, isTextDelta]

/-- Count of widget creations emitted by the loop. -/
theorem runLoop_countP_createMsg (evs : List RunEvent) :
    ∀ st : LoopState,
      (runLoop st evs).2.countP isCreateMsg
        = (if st.msgCreated then 0 else if evs.any isTextDelta then 1 else 0) := by
  induction evs with
  | nil => intro st; simp [runLoop]
  | cons e es ih =>
    intro st
    rw [runLoop_cons, List.countP_append, ih]
    cases e with
    | toolCallItem n c a =>
      cases c with
      | some c0 =>
        by_cases hc : c0.isEmpty <;>
          by_cases hm : st.msgCreated <;>
            simp [stepEvent, hc, hm, isTextDelta, isCreateMsg, List.countP_cons]
      | none =>
        by_cases hm : st.msgCreated <;>
          simp [stepEvent, hm, isTextDelta, isCreateMsg, List.countP_cons]
    | toolCallOutputItem c out =>
      cases c with
      | some c0 =>
        by_cases hc : (!c0.isEmpty && decide (c0 ∈ st.toolSteps)) = true <;>
          by_cases hm : st.msgCreated <;>
            simp [stepEvent, hc, hm, isTextDelta, isCreateMsg, List.countP_cons]
      | none =>
        by_cases hm : st.msgCreated <;>
          simp [stepEvent, hm, isTextDelta, isCreateMsg, List.countP_cons]
    | textDelta d =>
      by_cases hm : st.msgCreated <;>
        simp [stepEvent, hm, isTextDelta, isCreateMsg, List.countP_cons]
    | otherEvent =>
      by_cases hm : st.msgCreated <;>
        simp [stepEvent, hm, isTextDelta, isCreateMsg, List.countP_cons]

/-- Widget creation is emitted exactly when the widget was not yet created
and some text delta arrives. -/
theorem runLoop_createMsg_mem (evs : List RunEvent) :
    ∀ st : LoopState,
      (UIAction.createMsg ∈ (runLoop st evs).2
        ↔ (st.msgCreated = false ∧ evs.any isTextDelta = true)) := by
  induction evs with
  | nil => intro st; simp [runLoop]
  | cons e es ih =>
    intro st
    rw [runLoop_cons, List.mem_append, ih]
    cases e with
    | toolCallItem n c a =>
      cases c with
      | some c0 => by_cases hc : c0.isEmpty <;> simp [stepEvent, hc, isTextDelta]
      | none => simp [stepEvent, isTextDelta]
    | toolCallOutputItem c out =>
      cases c with
      | some c0 =>
        by_cases hc : (!c0.isEmpty && decide (c0 ∈ st.toolSteps)) = true <;>
          simp [stepEvent, hc, isTextDelta]
      | none => simp [stepEvent, isTextDelta]
    | textDelta d =>
      by_cases hm : st.msgCreated <;> simp [stepEvent, hm, isTextDelta]
    | otherEvent => simp [stepEvent, isTextDelta]

/-- Before the widget is created, every streamed token in the emitted
action list is preceded by the widget creation. -/
theorem runLoop_streamToken_after_create (evs : List RunEvent) :
    ∀ (st : LoopState) (l r : List UIAction) (d : String),
      st.msgCreated = false →
      (runLoop st evs).2 = l ++ UIAction.streamToken d :: r →
      UIAction.createMsg ∈ l := by
  induction evs with
  | nil =>
    intro st l r d _ h
    simp only [runLoop] at h
    exact absurd h (by simp)
  | cons e es ih =>
    intro st l r d hm h
    rw [runLoop_cons] at h
    cases e with
    | toolCallItem n c a =>
      have h2 : ∃ st2, stepEvent st (RunEvent.toolCallItem n c a)
          = (st2, [UIAction.sendStep n a]) ∧ st2.msgCreated = st.msgCreated := by
        cases c with
        | some c0 =>
          by_cases hc : c0.isEmpty
          · exact ⟨st, by simp [stepEvent, hc], rfl⟩
          · exact ⟨{ st with toolSteps := c0 :: st.toolSteps }, by simp [stepEvent, hc], rfl⟩
        | none => exact ⟨st, by simp [stepEvent], rfl⟩
      rcases h2 with ⟨st2, hst2, hmc⟩
      rw [hst2] at h
      cases l with
      | nil => simp at h
      | cons x l2 =>
        simp only [List.cons_append, List.singleton_append, List.cons.injEq] at h
        exact List.mem_cons_of_mem x (ih st2 l2 r d (hmc.trans hm) h.2)
    | toolCallOutputItem c out =>
      have h2 : ∃ acts, stepEvent st (RunEvent.toolCallOutputItem c out) = (st, acts)
          ∧ (acts = [] ∨ ∃ c0, acts = [UIAction.updateStep c0 out]) := by
        cases c with
        | some c0 =>
          by_cases hc : (!c0.isEmpty && decide (c0 ∈ st.toolSteps)) = true
          · exact ⟨_, by simp [stepEvent, hc], Or.inr ⟨c0, rfl⟩⟩
          · exact ⟨_, by simp [stepEvent, hc], Or.inl rfl⟩
        | none => exact ⟨_, by simp [stepEvent], Or.inl rfl⟩
      rcases h2 with ⟨acts, hst2, hacts⟩
      rw [hst2] at h
      rcases hacts with hnil | ⟨c0, hone⟩
      · subst hnil
        simp only [List.nil_append] at h
        exact ih st l r d hm h
      · subst hone
        cases l with
        | nil => simp at h
        | cons x l2 =>
          simp only [List.cons_append, List.singleton_append, List.cons.injEq] at h
          exact List.mem_cons_of_mem x (ih st l2 r d hm h.2)
    | textDelta d0 =>
      simp only [stepEvent, hm, Bool.false_eq_true, if_false] at h
      cases l with
      | nil => simp at h
      | cons x l2 =>
        simp only [List.cons_append, List.cons.injEq] at h
        exact h.1 ▸ List.mem_cons_self _ _
    | otherEvent =>
      simp only [stepEvent, List.nil_append] at h
      exact ih st l r d hm h

/-- C4: the abuse guardrail aborts exactly on the classifier flag:
`abuse_guardrail` wraps the `AbuseCheck` returned by the detector agent with
`tripwire_triggered` equal to its `is_abusive` field, and when the resulting
tripwire exception is raised, `on_message` emits exactly one UI action: the
fixed apology message, with no agent-generated response. -/
theorem guardrail_tripwire_and_apology :
    (∀ check : CSvc.AbuseCheck,
        (abuse_guardrail check).tripwire_triggered = check.is_abusive
        ∧ (abuse_guardrail check).output_info = check)
    ∧ on_message RunOutcome.tripwire = [UIAction.sendMessage apologyMessage] :=
  ⟨fun _ => ⟨rfl, rfl⟩, rfl⟩

/-- C8: the streaming loop of `on_message` keeps two invariants over every
event sequence: a `toolCallOutputItem` leads to a step update only if a
`toolCallItem` with the same call id arrived earlier (and is silently
dropped otherwise), and the assistant text widget is created at most once —
exactly when some text delta arrives — with every streamed token preceded
by that single creation. -/
theorem stream_loop_invariants :
    (∀ (pre : List RunEvent) (c : Option String) (out : String),
        (stepEvent (runLoop initLoopState pre).1 (RunEvent.toolCallOutputItem c out)).2 ≠ [] →
        ∃ s name args, c = some s ∧ RunEvent.toolCallItem name (some s) args ∈ pre)
    ∧ (∀ (pre : List RunEvent) (c : Option String) (out : String),
        (∀ s name args, c = some s → RunEvent.toolCallItem name (some s) args ∈ pre → False) →
        (stepEvent (runLoop initLoopState pre).1 (RunEvent.toolCallOutputItem c out)).2 = [])
    ∧ (∀ evs : List RunEvent, (runLoop initLoopState evs).2.countP isCreateMsg ≤ 1)
    ∧ (∀ evs : List RunEvent,
        (UIAction.createMsg ∈ (runLoop initLoopState evs).2 ↔ evs.any isTextDelta = true))
    ∧ (∀ (evs : List RunEvent) (l r : List UIAction) (d : String),
        (runLoop initLoopState evs).2 = l ++ UIAction.streamToken d :: r →
        UIAction.createMsg ∈ l) := by
  have hreg : ∀ (pre : List RunEvent) (s : String),
      s ∈ (runLoop initLoopState pre).1.toolSteps →
      ∃ name args, RunEvent.toolCallItem name (some s) args ∈ pre := by
    intro pre s h
    rcases mem_toolSteps_of_runLoop pre initLoopState s h with h0 | h1
    · exact absurd h0 (by simp [initLoopState])
    · exact h1
  refine ⟨?_, ?_, ?_, ?_, ?_⟩
  · intro pre c out hne
    cases c with
    | some c0 =>
      by_cases hc : (!c0.isEmpty && decide (c0 ∈ (runLoop initLoopState pre).1.toolSteps)) = true
      · have hmem : c0 ∈ (runLoop initLoopState pre).1.toolSteps := by
          have := (Bool.and_eq_true _ _).mp hc
          exact of_decide_eq_true this.2
        rcases hreg pre c0 hmem with ⟨name, args, hin⟩
        exact ⟨c0, name, args, rfl, hin⟩
      · exact absurd (by simp [stepEvent, hc]) hne
    | none => exact absurd (by simp [stepEvent]) hne
  · intro pre c out hno
    cases c with
    | some c0 =>
      by_cases hc : (!c0.isEmpty && decide (c0 ∈ (runLoop initLoopState pre).1.toolSteps)) = true
      · have hmem : c0 ∈ (runLoop initLoopState pre).1.toolSteps := by
          have := (Bool.and_eq_true _ _).mp hc
          exact of_decide_eq_true this.2
        rcases hreg pre c0 hmem with ⟨name, args, hin⟩
        exact absurd hin (fun hx => hno c0 name args rfl hx)
      · simp [stepEvent, hc]
    | none => simp [stepEvent]
  · intro evs
    rw [runLoop_countP_createMsg evs initLoopState]
    by_cases h : evs.any isTextDelta <;> simp [initLoopState, h]
  · intro evs
    rw [runLoop_createMsg_mem evs initLoopState]
    simp [initLoopState]
  · intro evs l r d h
    exact runLoop_streamToken_after_create evs initLoopState l r d rfl h

theorem stream_loop_invariants_witness :
    (stepEvent
        (runLoop initLoopState
          [RunEvent.toolCallItem "lookup_order" (some "call-7") "\x7b\x7d"]).1
        (RunEvent.toolCallOutputItem (some "missing") "out")).2 = []
    ∧ UIAction.createMsg
        ∈ (runLoop initLoopState [RunEvent.otherEvent, RunEvent.textDelta "Hi"]).2
    ∧ UIAction.createMsg ∈ [UIAction.createMsg] := by
  refine ⟨?_, ?_, ?_⟩
  · exact stream_loop_invariants.2.1
      [RunEvent.toolCallItem "lookup_order" (some "call-7") "\x7b\x7d"]
      (some "missing") "out"
      (by intro s name args hs hmem
          cases hs
          simp at hmem)
  · exact (stream_loop_invariants.2.2.2.1
      [RunEvent.otherEvent, RunEvent.textDelta "Hi"]).mpr (by decide)
  · exact stream_loop_invariants.2.2.2.2
      [RunEvent.otherEvent, RunEvent.textDelta "Hi"] [UIAction.createMsg]
      [] "Hi" (by decide)

end ChatUI

namespace FileOrg

/-- Python `name.startswith(".")`: the first character is a dot. -/
def startsWithDot (s : String) : Bool :=
  match s.data with
  | c :: _ => c == '.'
  | [] => false

/-- Python `str.lower()` on an extension (ASCII characters). -/
def lowerStr (s : String) : String := String.mk (s.data.map Char.toLower)

/-- The `FILE_CATEGORIES` extension-to-folder table of
`filesystem_agent.py`. -/
def FILE_CATEGORIES : List (String × String) :=
  [(".pdf", "Documents/PDFs"),
   (".doc", "Documents/Word"),
   (".docx", "Documents/Word"),
   (".txt", "Documents/Text"),
   (".rtf", "Documents/Text"),
   (".md", "Documents/Markdown"),
   (".xls", "Spreadsheets"),
   (".xlsx", "Spreadsheets"),
   (".csv", "Spreadsheets"),
   (".jpg", "Images"),
   (".jpeg", "Images"),
   (".png", "Images"),
   (".gif", "Images"),
   (".svg", "Images"),
   (".webp", "Images"),
   (".heic", "Images"),
   (".mp4", "Videos"),
   (".mov", "Videos"),
   (".avi", "Videos"),
   (".mkv", "Videos"),
   (".webm", "Videos"),
   (".mp3", "Audio"),
   (".wav", "Audio"),
   (".flac", "Audio"),
   (".m4a", "Audio"),
   (".aac", "Audio"),
   (".zip", "Archives"),
   (".rar", "Archives"),
   (".7z", "Archives"),
   (".tar", "Archives"),
   (".gz", "Archives"),
   (".py", "Code/Python"),
   (".js", "Code/JavaScript"),
   (".ts", "Code/TypeScript"),
   (".html", "Code/Web"),
   (".css", "Code/Web"),
   (".json", "Code/Data"),
   (".yaml", "Code/Data"),
   (".yml", "Code/Data"),
   (".dmg", "Installers"),
   (".pkg", "Installers"),
   (".exe", "Installers"),
   (".msi", "Installers"),
   (".app", "Applications")]

/-- One entry returned by `folder.iterdir()`: its name, whether it is a
directory, and the `Path.suffix` / `Path.stem` decomposition of the name. -/
structure DirEntry where
  name : String
  is_dir : Bool
  suffix : String
  stem : String
deriving Repr, DecidableEq

/-- The fields of `item.stat()` that `scan_folder` reads: the size in bytes
and the formatted modification date (the `strftime` rendering is framework
work, so the formatted string is carried directly). -/
structure FileStat where
  st_size : Nat
  mtime_str : String
deriving Repr, DecidableEq

/-- Python `round(x, 2)` on an exact rational (half-up on ties). -/
def round2 (q : ℚ) : ℚ := ((q * 100 + 1/2).floor : ℚ) / 100

/-- One element of the `files` array produced by `scan_folder`: either the
full info record, or the name/error record produced by the
`except (OSError, PermissionError)` branch. -/
inductive ScanRecord where
  | info (name extension : String) (size_mb : ℚ) (modified_date : String)
      (category full_path : String)
  | errored (name error : String)
deriving Repr, DecidableEq

/-- The JSON object returned by a successful `scan_folder`. -/
structure ScanOutput where
  folder : String
  total_files : Nat
  files : List ScanRecord
deriving Repr, DecidableEq

/-- The per-entry body of the `scan_folder` loop: skip directories, skip
hidden files unless requested, then record extension, size, date and
category (`FILE_CATEGORIES.get(extension, "Other")` on the lowercased
suffix), or an error record when `stat` raises. -/
def scanEntry (folder : String) (stat : DirEntry → PyResult FileStat)
    (include_hidden : Bool) (item : DirEntry) : Option ScanRecord :=
  if item.is_dir then none
  else if !include_hidden && startsWithDot item.name then none
  else
    match stat item with
    | PyResult.ok fst =>
      some (ScanRecord.info item.name (lowerStr item.suffix)
        (round2 ((fst.st_size : ℚ) / (1024 * 1024)))
        fst.mtime_str
        ((FILE_CATEGORIES.lookup (lowerStr item.suffix)).getD "Other")
        (folder ++ "/" ++ item.name))
    | PyResult.exn e => some (ScanRecord.errored item.name e)

/-- `scan_folder` of `filesystem_agent.py`.  Folder existence and dirness,
the directory listing, and `stat` results are filesystem reads passed as
parameters; the error JSON objects of the guards are modelled as the `exn`
branch. -/
def scan_folder (folder : String) (folderExists folderIsDir : Bool)
    (entries : List DirEntry) (stat : DirEntry → PyResult FileStat)
    (include_hidden : Bool) : PyResult ScanOutput :=
  if !folderExists then PyResult.exn ("Folder does not exist: " ++ folder)
  else if !folderIsDir then PyResult.exn ("Path is not a folder: " ++ folder)
  else
    let files := entries.filterMap (scanEntry folder stat include_hidden)
    PyResult.ok { folder := folder, total_files := files.length, files := files }

/-- One element of the `actions` array of `organize_files`; keys absent from
a given JSON object are `none`. -/
structure ActionRec where
  file_name : String
  action : String
  src : Option String
  destination : Option String
  reason : String
deriving Repr, DecidableEq

/-- A filesystem mutation performed by `organize_files`:
`dest_folder.mkdir(parents=True, exist_ok=True)` or `shutil.move`. -/
inductive FSOp where
  | mkdirP (path : String)
  | move (src dst : String)
deriving Repr, DecidableEq

/-- The destination folder `folder / category` for a non-hidden file. -/
def destFolder (folder : String) (e : DirEntry) : String :=
  folder ++ "/" ++ (FILE_CATEGORIES.lookup (lowerStr e.suffix)).getD "Other"

/-- The destination path, with the timestamp rename applied on a name
conflict (the timestamp string is a parameter; the lowercased extension is
reused in the renamed file, as in the source). -/
def destPath (folder : String) (destExists : String → Bool) (ts : String)
    (e : DirEntry) : String :=
  let dest_path := destFolder folder e ++ "/" ++ e.name
  if destExists dest_path then
    destFolder folder e ++ "/" ++ e.stem ++ "_" ++ ts ++ lowerStr e.suffix
  else dest_path

/-- The action record for a skipped hidden file. -/
def hiddenSkipRec (e : DirEntry) : ActionRec :=
  { file_name := e.name, action := "skipped", src := none, destination := none,
    reason := "Hidden file" }

/-- The action record emitted for a file in dry-run mode. -/
def wouldMoveRec (folder : String) (destExists : String → Bool) (ts : String)
    (e : DirEntry) : ActionRec :=
  { file_name := e.name, action := "would_move",
    src := some (folder ++ "/" ++ e.name),
    destination := some (destPath folder destExists ts e),
    reason := "Categorized as " ++ (FILE_CATEGORIES.lookup (lowerStr e.suffix)).getD "Other" }

/-- The action record emitted after a successful move. -/
def movedRec (folder : String) (destExists : String → Bool) (ts : String)
    (e : DirEntry) : ActionRec :=
  { file_name := e.name, action := "moved",
    src := some (folder ++ "/" ++ e.name),
    destination := some (destPath folder destExists ts e),
    reason := "Categorized as " ++ (FILE_CATEGORIES.lookup (lowerStr e.suffix)).getD "Other" }

/-- The action record emitted when the move raises. -/
def errorRec (folder : String) (e : DirEntry) (msg : String) : ActionRec :=
  { file_name := e.name, action := "error",
    src := some (folder ++ "/" ++ e.name), destination := none, reason := msg }

/-- The loop-carried state of `organize_files`: the `actions` list, the two
counters, and the filesystem mutations performed so far. -/
structure OrgState where
  actions : List ActionRec
  moved : Nat
  skipped : Nat
  ops : List FSOp
deriving Repr, DecidableEq

/-- One iteration of the `organize_files` loop.  In the execute branch the
`try` block first creates the destination folder, then moves; a raising
move (abstracted by `moveRes`) leaves the mkdir performed and records the
exception message as an error action. -/
def orgStep (folder : String) (destExists : String → Bool) (ts : String)
    (moveRes : String → String → PyResult Unit) (dry_run : Bool)
    (st : OrgState) (e : DirEntry) : OrgState :=
  if e.is_dir then st
  else if startsWithDot e.name then
    { st with
        actions := st.actions ++ [hiddenSkipRec e]
        skipped := st.skipped + 1 }
  else if dry_run then
    { st with
        actions := st.actions ++ [wouldMoveRec folder destExists ts e]
        moved := st.moved + 1 }
  else
    match moveRes (folder ++ "/" ++ e.name) (destPath folder destExists ts e) with
    | PyResult.ok _ =>
      { st with
          actions := st.actions ++ [movedRec folder destExists ts e]
          moved := st.moved + 1
          ops := st.ops ++ [FSOp.mkdirP (destFolder folder e),
            FSOp.move (folder ++ "/" ++ e.name) (destPath folder destExists ts e)] }
    | PyResult.exn m =>
      { st with
          actions := st.actions ++ [errorRec folder e m]
          skipped := st.skipped + 1
          ops := st.ops ++ [FSOp.mkdirP (destFolder folder e)] }

/-- The JSON report returned by a successful `organize_files`. -/
structure CleanupReport where
  mode : String
  source_folder : String
  total_files_processed : Nat
  files_organized : Nat
  files_skipped : Nat
  actions : List ActionRec
deriving Repr, DecidableEq

/-- `organize_files` of `filesystem_agent.py`, paired with the list of
filesystem mutations it performs; the invalid-folder error JSON is the
`exn` branch. -/
def organize_files (folder : String) (folderExists folderIsDir : Bool)
    (entries : List DirEntry) (destExists : String → Bool) (ts : String)
    (moveRes : String → String → PyResult Unit) (dry_run : Bool) :
    PyResult (CleanupReport × List FSOp) :=
  if !(folderExists && folderIsDir) then
    PyResult.exn ("Invalid folder: " ++ folder)
  else
    let fin := entries.foldl (orgStep folder destExists ts moveRes dry_run)
      { actions := [], moved := 0, skipped := 0, ops := [] }
    PyResult.ok
      ({ mode := if dry_run then "DRY RUN" else "EXECUTED",
         source_folder := folder,
         total_files_processed := fin.moved + fin.skipped,
         files_organized := fin.moved,
         files_skipped := fin.skipped,
         actions := fin.actions }, fin.ops)

-- Dry-run fold lemmas.

theorem orgFold_dry_ops (folder : String) (destExists : String → Bool) (ts : String)
    (moveRes : String → String → PyResult Unit) (entries : List DirEntry) :
    ∀ st : OrgState,
      (entries.foldl (orgStep folder destExists ts moveRes true) st).ops = st.ops := by
  induction entries with
  | nil => intro st; rfl
  | cons e es ih =>
    intro st
    rw [List.foldl_cons, ih]
    by_cases hd : e.is_dir
    · simp [orgStep, hd]
    · rw [Bool.not_eq_true] at hd
      by_cases hh : startsWithDot e.name
      · simp [orgStep, hd, hh]
      · rw [Bool.not_eq_true] at hh
        simp [orgStep, hd, hh]

theorem orgFold_dry_moved (folder : String) (destExists : String → Bool) (ts : String)
    (moveRes : String → String → PyResult Unit) (entries : List DirEntry) :
    ∀ st : OrgState,
      (entries.foldl (orgStep folder destExists ts moveRes true) st).moved
        = st.moved + entries.countP (fun e => !e.is_dir && !(startsWithDot e.name)) := by
  induction entries with
  | nil => intro st; simp
  | cons e es ih =>
    intro st
    rw [List.foldl_cons, ih, List.countP_cons]
    by_cases hd : e.is_dir
    · simp [orgStep, hd]
    · rw [Bool.not_eq_true] at hd
      by_cases hh : startsWithDot e.name
      · simp [orgStep, hd, hh]
      · rw [Bool.not_eq_true] at hh
        simp [orgStep, hd, hh]
        all_goals omega

theorem orgFold_dry_skipped (folder : String) (destExists : String → Bool) (ts : String)
    (moveRes : String → String → PyResult Unit) (entries : List DirEntry) :
    ∀ st : OrgState,
      (entries.foldl (orgStep folder destExists ts moveRes true) st).skipped
        = st.skipped + entries.countP (fun e => !e.is_dir && startsWithDot e.name) := by
  induction entries with
  | nil => intro st; simp
  | cons e es ih =>
    intro st
    rw [List.foldl_cons, ih, List.countP_cons]
    by_cases hd : e.is_dir
    · simp [orgStep, hd]
    · rw [Bool.not_eq_true] at hd
      by_cases hh : startsWithDot e.name
      · simp [orgStep, hd, hh]
        all_goals omega
      · rw [Bool.not_eq_true] at hh
        simp [orgStep, hd, hh]

theorem orgFold_dry_actions (folder : String) (destExists : String → Bool) (ts : String)
    (moveRes : String → String → PyResult Unit) (entries : List DirEntry) :
    ∀ st : OrgState,
      (entries.foldl (orgStep folder destExists ts moveRes true) st).actions
        = st.actions ++ entries.filterMap (fun e =>
            if e.is_dir then none
            else if startsWithDot e.name then some (hiddenSkipRec e)
            else some (wouldMoveRec folder destExists ts e)) := by
  induction entries with
  | nil => intro st; simp
  | cons e es ih =>
    intro st
    rw [List.foldl_cons, ih, List.filterMap_cons]
    by_cases hd : e.is_dir
    · simp [orgStep, hd]
    · rw [Bool.not_eq_true] at hd
      by_cases hh : startsWithDot e.name
      · simp [orgStep, hd, hh]
      · rw [Bool.not_eq_true] at hh
        simp [orgStep, hd, hh]

/-- C10: with `dry_run=True`, `organize_files` performs no filesystem
mutation: no move and no directory creation; every non-hidden non-directory
entry is reported with action `"would_move"` and counted in
`files_organized`, every hidden file with action `"skipped"` and counted in
`files_skipped`, and `total_files_processed` is their sum. -/
theorem organize_dry_run_pure (folder ts : String) (entries : List DirEntry)
    (destExists : String → Bool) (moveRes : String → String → PyResult Unit)
    (rep : CleanupReport) (ops : List FSOp)
    (h : organize_files folder true true entries destExists ts moveRes true
          = PyResult.ok (rep, ops)) :
    ops = []
    ∧ rep.files_organized = entries.countP (fun e => !e.is_dir && !(startsWithDot e.name))
    ∧ rep.files_skipped = entries.countP (fun e => !e.is_dir && startsWithDot e.name)
    ∧ rep.total_files_processed = rep.files_organized + rep.files_skipped
    ∧ rep.actions = entries.filterMap (fun e =>
        if e.is_dir then none
        else if startsWithDot e.name then some (hiddenSkipRec e)
        else some (wouldMoveRec folder destExists ts e))
    ∧ (∀ e, (hiddenSkipRec e).action = "skipped")
    ∧ (∀ e, (wouldMoveRec folder destExists ts e).action = "would_move") := by
  simp only [organize_files, Bool.and_self, Bool.not_true, Bool.false_eq_true, if_false,
    PyResult.ok.injEq, Prod.mk.injEq] at h
  obtain ⟨hrep, hops⟩ := h
  subst hrep
  subst hops
  refine ⟨?_, ?_, ?_, rfl, ?_, fun e => rfl, fun e => rfl⟩
  · exact orgFold_dry_ops folder destExists ts moveRes entries
      { actions := [], moved := 0, skipped := 0, ops := [] }
  · simpa using orgFold_dry_moved folder destExists ts moveRes entries
      { actions := [], moved := 0, skipped := 0, ops := [] }
  · simpa using orgFold_dry_skipped folder destExists ts moveRes entries
      { actions := [], moved := 0, skipped := 0, ops := [] }
  · simpa using orgFold_dry_actions folder destExists ts moveRes entries
      { actions := [], moved := 0, skipped := 0, ops := [] }

theorem organize_dry_run_pure_witness :
    organize_files "home" true true
        [{ name := "report.pdf", is_dir := false, suffix := ".pdf", stem := "report" },
         { name := ".env", is_dir := false, suffix := "", stem := ".env" },
         { name := "sub", is_dir := true, suffix := "", stem := "sub" }]
        (fun _ => false) "TS" (fun _ _ => PyResult.ok ()) true
      = PyResult.ok
          ({ mode := "DRY RUN", source_folder := "home",
             total_files_processed := 2, files_organized := 1, files_skipped := 1,
             actions :=
               [{ file_name := "report.pdf", action := "would_move",
                  src := some "home/report.pdf",
                  destination := some "home/Documents/PDFs/report.pdf",
                  reason := "Categorized as Documents/PDFs" },
                { file_name := ".env", action := "skipped", src := none,
                  destination := none, reason := "Hidden file" }] }, [])
    ∧ (CleanupReport.mk "DRY RUN" "home" 2 1 1
        [{ file_name := "report.pdf", action := "would_move",
           src := some "home/report.pdf",
           destination := some "home/Documents/PDFs/report.pdf",
           reason := "Categorized as Documents/PDFs" },
         { file_name := ".env", action := "skipped", src := none,
           destination := none, reason := "Hidden file" }]).total_files_processed
      = (CleanupReport.mk "DRY RUN" "home" 2 1 1
        [{ file_name := "report.pdf", action := "would_move",
           src := some "home/report.pdf",
           destination := some "home/Documents/PDFs/report.pdf",
           reason := "Categorized as Documents/PDFs" },
         { file_name := ".env", action := "skipped", src := none,
           destination := none, reason := "Hidden file" }]).files_organized
        + (CleanupReport.mk "DRY RUN" "home" 2 1 1
        [{ file_name := "report.pdf", action := "would_move",
           src := some "home/report.pdf",
           destination := some "home/Documents/PDFs/report.pdf",
           reason := "Categorized as Documents/PDFs" },
         { file_name := ".env", action := "skipped", src := none,
           destination := none, reason := "Hidden file" }]).files_skipped := by
  have h : organize_files "home" true true
      [{ name := "report.pdf", is_dir := false, suffix := ".pdf", stem := "report" },
       { name := ".env", is_dir := false, suffix := "", stem := ".env" },
       { name := "sub", is_dir := true, suffix := "", stem := "sub" }]
      (fun _ => false) "TS" (fun _ _ => PyResult.ok ()) true
      = PyResult.ok
          ({ mode := "DRY RUN", source_folder := "home",
             total_files_processed := 2, files_organized := 1, files_skipped := 1,
             actions :=
               [{ file_name := "report.pdf", action := "would_move",
                  src := some "home/report.pdf",
                  destination := some "home/Documents/PDFs/report.pdf",
                  reason := "Categorized as Documents/PDFs" },
                { file_name := ".env", action := "skipped", src := none,
                  destination := none, reason := "Hidden file" }] }, []) := by decide
  have h2 := organize_dry_run_pure "home" "TS"
    [{ name := "report.pdf", is_dir := false, suffix := ".pdf", stem := "report" },
     { name := ".env", is_dir := false, suffix := "", stem := ".env" },
     { name := "sub", is_dir := true, suffix := "", stem := "sub" }]
    (fun _ => false) (fun _ _ => PyResult.ok ()) _ _ h
  exact ⟨h, h2.2.2.2.1⟩

/-- C5: file classification is a pure lookup on the lowercased extension:
a non-hidden non-directory entry is reported by `scan_folder` with category
`FILE_CATEGORIES.get(suffix.lower(), "Other")` and by `organize_files`
(dry run) with a `would_move` action whose reason names the same category,
and any two entries with the same extension up to letter case receive the
same category. -/
theorem category_lookup_consistent (folder ts : String)
    (folderExists folderIsDir include_hidden : Bool)
    (entries : List DirEntry) (stat : DirEntry → PyResult FileStat)
    (destExists : String → Bool) (moveRes : String → String → PyResult Unit)
    (item : DirEntry) (fst : FileStat) (out : ScanOutput)
    (rep : CleanupReport) (ops : List FSOp)
    (hmem : item ∈ entries) (hdir : item.is_dir = false)
    (hhid : startsWithDot item.name = false)
    (hstat : stat item = PyResult.ok fst)
    (hscan : scan_folder folder folderExists folderIsDir entries stat include_hidden
              = PyResult.ok out)
    (horg : organize_files folder folderExists folderIsDir entries destExists ts moveRes true
              = PyResult.ok (rep, ops)) :
    (∃ sz, ScanRecord.info item.name (lowerStr item.suffix) sz fst.mtime_str
        ((FILE_CATEGORIES.lookup (lowerStr item.suffix)).getD "Other")
        (folder ++ "/" ++ item.name) ∈ out.files)
    ∧ wouldMoveRec folder destExists ts item ∈ rep.actions
    ∧ (wouldMoveRec folder destExists ts item).reason
        = "Categorized as " ++ ((FILE_CATEGORIES.lookup (lowerStr item.suffix)).getD "Other")
    ∧ ∀ item2 : DirEntry, lowerStr item2.suffix = lowerStr item.suffix →
        (FILE_CATEGORIES.lookup (lowerStr item2.suffix)).getD "Other"
          = (FILE_CATEGORIES.lookup (lowerStr item.suffix)).getD "Other" := by
  cases folderExists with
  | false => simp [scan_folder] at hscan
  | true =>
    cases folderIsDir with
    | false => simp [scan_folder] at hscan
    | true =>
      simp only [scan_folder, Bool.not_true, Bool.false_eq_true, if_false,
        PyResult.ok.injEq] at hscan
      subst hscan
      simp only [organize_files, Bool.and_self, Bool.not_true, Bool.false_eq_true,
        if_false, PyResult.ok.injEq, Prod.mk.injEq] at horg
      obtain ⟨hrep, hops⟩ := horg
      subst hrep
      refine ⟨?_, ?_, rfl, fun item2 h2 => by rw [h2]⟩
      · refine ⟨round2 ((fst.st_size : ℚ) / (1024 * 1024)),
          List.mem_filterMap.mpr ⟨item, hmem, ?_⟩⟩
        simp [scanEntry, hdir, hhid, hstat]
      · rw [show (CleanupReport.mk _ folder _ _ _
            (List.foldl (orgStep folder destExists ts moveRes true)
              { actions := [], moved := 0, skipped := 0, ops := [] } entries).actions).actions
            = (List.foldl (orgStep folder destExists ts moveRes true)
              { actions := [], moved := 0, skipped := 0, ops := [] } entries).actions from rfl,
          orgFold_dry_actions folder destExists ts moveRes entries _]
        exact List.mem_append_right _
          (List.mem_filterMap.mpr ⟨item, hmem, by simp [hdir, hhid]⟩)

unseal Rat.mul Rat.add Rat.inv in
theorem category_lookup_consistent_witness :
    (∃ sz, ScanRecord.info "Photo.JPG" (lowerStr ".JPG") sz "2026-01-02 03:04"
        ((FILE_CATEGORIES.lookup (lowerStr ".JPG")).getD "Other") ("f" ++ "/" ++ "Photo.JPG")
      ∈ (ScanOutput.mk "f" 1
          [ScanRecord.info "Photo.JPG" ".jpg" 2 "2026-01-02 03:04" "Images" "f/Photo.JPG"]).files)
    ∧ wouldMoveRec "f" (fun _ => false) "TS"
        { name := "Photo.JPG", is_dir := false, suffix := ".JPG", stem := "Photo" }
      ∈ (CleanupReport.mk "DRY RUN" "f" 1 1 0
          [{ file_name := "Photo.JPG", action := "would_move",
             src := some "f/Photo.JPG",
             destination := some "f/Images/Photo.JPG",
             reason := "Categorized as Images" }]).actions
    ∧ (FILE_CATEGORIES.lookup (lowerStr ".JPG")).getD "Other" = "Images" := by
  have h := category_lookup_consistent "f" "TS" true true false
    [{ name := "Photo.JPG", is_dir := false, suffix := ".JPG", stem := "Photo" }]
    (fun _ => PyResult.ok { st_size := 2097152, mtime_str := "2026-01-02 03:04" })
    (fun _ => false) (fun _ _ => PyResult.ok ())
    { name := "Photo.JPG", is_dir := false, suffix := ".JPG", stem := "Photo" }
    { st_size := 2097152, mtime_str := "2026-01-02 03:04" }
    (ScanOutput.mk "f" 1
      [ScanRecord.info "Photo.JPG" ".jpg" 2 "2026-01-02 03:04" "Images" "f/Photo.JPG"])
    (CleanupReport.mk "DRY RUN" "f" 1 1 0
      [{ file_name := "Photo.JPG", action := "would_move",
         src := some "f/Photo.JPG",
         destination := some "f/Images/Photo.JPG",
         reason := "Categorized as Images" }]) []
    (by decide) rfl rfl rfl (by decide) (by decide)
  exact ⟨h.1, h.2.1, by decide⟩

end FileOrg

namespace Dash

/-- Insertion into a sorted list of rationals. -/
def insertSorted (x : ℚ) : List ℚ → List ℚ
  | [] => [x]
  | y :: ys => if x ≤ y then x :: y :: ys else y :: insertSorted x ys

/-- Insertion sort, used to model the sorting pandas performs internally
when computing a quantile. -/
def sortRat : List ℚ → List ℚ
  | [] => []
  | x :: xs => insertSorted x (sortRat xs)

/-- pandas `Series.quantile(q)` with the default linear interpolation: with
the values sorted as `s` of length `n`, the quantile sits at position
`q * (n - 1)`; writing `i` for its floor and `g` for its fractional part,
the result is `s[i] + g * (s[i+1] - s[i])`. -/
def quantileLinear (xs : List ℚ) (q : ℚ) : ℚ :=
  match sortRat xs with
  | [] => 0
  | _ :: _ =>
    let s := sortRat xs
    let n := s.length
    let pos : ℚ := q * ((n : ℚ) - 1)
    let i : Nat := pos.floor.toNat
    let g : ℚ := pos - (i : ℚ)
    let a := s.getD i 0
    let b := s.getD (i + 1) a
    a + g * (b - a)

/-- The per-column outlier check inside `detect_anomalies` of
`data_dashboard_agent.py`.  A column is a list of cells, `none` standing
for a null (NaN) cell.  `data = df[col].dropna()`; a column with fewer than
10 non-null values is skipped (`none`); otherwise Q1 and Q3 are the 0.25
and 0.75 quantiles of the non-null data, and the returned count is
`len(df[(df[col] < Q1 - 1.5*IQR) | (df[col] > Q3 + 1.5*IQR)])` — the
comparisons are strict and a NaN cell satisfies neither. -/
def detect_anomalies_col (rows : List (Option ℚ)) : Option Nat :=
  let data := rows.filterMap id
  if data.length < 10 then none
  else
    let q1 := quantileLinear data (1/4)
    let q3 := quantileLinear data (3/4)
    let iqr := q3 - q1
    let lower_bound := q1 - 3/2 * iqr
    let upper_bound := q3 + 3/2 * iqr
    some ((rows.filter (fun r =>
      match r with
      | some v => decide (v < lower_bound) || decide (upper_bound < v)
      | none => false)).length)

/-- C6: `detect_anomalies` computes outliers by the IQR method: a column
with fewer than 10 non-null values is skipped without being checked, and
for a column with at least 10 non-null values a row is counted as an
outlier exactly when its value is strictly below `Q1 - 1.5*IQR` or strictly
above `Q3 + 1.5*IQR`, where Q1 and Q3 are the 0.25 and 0.75 quantiles of
the non-null values and `IQR = Q3 - Q1` (null rows are never counted). -/
theorem detect_anomalies_iqr (rows : List (Option ℚ)) :
    ((rows.filterMap id).length < 10 → detect_anomalies_col rows = none)
    ∧ (10 ≤ (rows.filterMap id).length →
        detect_anomalies_col rows
          = some (rows.countP (fun r =>
              match r with
              | some v =>
                decide (v < quantileLinear (rows.filterMap id) (1/4)
                    - 3/2 * (quantileLinear (rows.filterMap id) (3/4)
                        - quantileLinear (rows.filterMap id) (1/4)))
                || decide (quantileLinear (rows.filterMap id) (3/4)
                    + 3/2 * (quantileLinear (rows.filterMap id) (3/4)
                        - quantileLinear (rows.filterMap id) (1/4)) < v)
              | none => false))) := by
  constructor
  · intro h
    simp [detect_anomalies_col, h]
  · intro h
    have h2 : ¬ (rows.filterMap id).length < 10 := not_lt.mpr h
    simp only [detect_anomalies_col, h2, if_false]
    rw [List.countP_eq_length_filter]

unseal Rat.mul Rat.add Rat.sub Rat.inv in
theorem detect_anomalies_iqr_witness :
    detect_anomalies_col [some 1, some 2, none] = none
    ∧ detect_anomalies_col
        [some 1, some 1, some 1, some 1, some 1, some 1, some 1, some 1, some 1,
         some 100, none]
      = some 1 := by
  constructor
  · exact (detect_anomalies_iqr [some 1, some 2, none]).1 (by decide)
  · have h := (detect_anomalies_iqr
      [some 1, some 1, some 1, some 1, some 1, some 1, some 1, some 1, some 1,
       some 100, none]).2 (by decide)
    rw [h]
    decide

end Dash
